import Mathlib

/-!
Shallow embedding of the SenteChainAI on-chain core:
`CreditScoreRegistry.sol`, `LendingPool.sol` and `SenteBadge.sol`
(the repository also ships a standard mock ERC-20 token used as the
pool's value ledger; its `transfer` / `transferFrom` / `approve`
semantics are embedded following OpenZeppelin ERC20).

Modelling conventions:
* `uint256` / `uint8` quantities are `Nat`.  Solidity 0.8 checked
  subtraction, which can revert at small reachable magnitudes, is
  modelled explicitly (`getUtilizationRate`, `activeLoanCount--`,
  `totalDeposits -= amount`, the `uint256` multiplication guard in
  `calculateInterest`).  Overflow of the monotone accumulator
  additions (`totalDeposits += amount`, counter increments, …) would
  require about 2^226 operations and is not modelled.  The `uint8`
  score arithmetic in the registry is always guarded by
  `score < 100` / `score > 15` checks in the source, so it can never
  wrap and the `Nat` embedding is exact.
* Every externally callable function returns `Except Err σ`.
  An `.error` result models a Solidity revert: the EVM rolls back all
  state written by the transaction, so the pre-call state is what
  persists (see `step`).  Writes that the source performs before a
  `revert` on the same path are therefore discarded by the embedding.
* Addresses are `Nat`, with `0` playing the role of `address(0)`.
* Events are not modelled (no claim is about event emission).
-/

namespace SenteChain

abbrev Addr := Nat

/-- Pointwise update of a map modelled as a function, mirroring a
Solidity `mapping` write. -/
def upd {α : Type} (m : Addr → α) (k : Addr) (v : α) : Addr → α :=
  fun a => if a = k then v else m a

/-- Update of a two-level mapping (ERC-20 allowances). -/
def upd2 {α : Type} (m : Addr → Addr → α) (k₁ k₂ : Addr) (v : α) :
    Addr → Addr → α :=
  fun a b => if a = k₁ ∧ b = k₂ then v else m a b

@[simp] theorem upd_same {α : Type} (m : Addr → α) (k : Addr) (v : α) :
    upd m k v k = v := by simp [upd]

@[simp] theorem upd_other {α : Type} (m : Addr → α) (k a : Addr) (v : α)
    (h : a ≠ k) : upd m k v a = m a := by simp [upd, h]

/-- Revert reasons of the embedded contracts (one constructor per
distinct `require` / `revert` message, plus the checked-arithmetic
panics of Solidity 0.8). -/
inductive Err : Type
  | unauthorized          -- AccessControl / onlyOwner / badge minter auth
  | alreadyExists         -- "Profile already exists"
  | invalidScore          -- "Invalid score"
  | noProfile             -- "Profile does not exist"
  | invalidAmount         -- "Amount must be greater than 0"
  | insufficientBalance   -- "Insufficient balance"
  | insufficientLiquidity -- "Insufficient pool liquidity"
  | amountTooLow          -- "Amount too low"
  | amountTooHigh         -- "Amount exceeds maximum"
  | activeLoanExists      -- "Active loan exists"
  | creditScoreTooLow     -- "Credit score too low"
  | invalidLoanId         -- "Invalid loan ID"
  | loanNotActive         -- "Loan not active"
  | loanAlreadyRepaid     -- "Loan already repaid"
  | notLoanOwner          -- "Not loan owner"
  | loanDefaulted         -- revert("Loan defaulted - past grace period")
  | alreadyHasBadge       -- "Address already has a badge"
  | badgeScoreTooLow      -- "Credit score too low" (SenteBadge)
  | zeroAddress           -- zero-address guards
  | transferFailed        -- ERC20 insufficient balance / allowance
  | underflow             -- Solidity 0.8 checked-subtraction panic
  | overflow              -- Solidity 0.8 checked-multiplication panic
  deriving Repr, DecidableEq

/-! ## Credit score registry (`CreditScoreRegistry.sol`) -/

/-- `CreditScoreRegistry.CreditProfile`. -/
structure CreditProfile : Type where
  score : Nat
  lastUpdated : Nat
  totalLoans : Nat
  successfulRepayments : Nat
  defaultedLoans : Nat
  isActive : Bool
  deriving Repr, DecidableEq

/-- The all-zero profile a Solidity `mapping` returns for an absent key. -/
def CreditProfile.empty : CreditProfile :=
  { score := 0, lastUpdated := 0, totalLoans := 0,
    successfulRepayments := 0, defaultedLoans := 0, isActive := false }

/-- Registry constants (`MIN_SCORE`, `MAX_SCORE`, `DEFAULT_SCORE`). -/
def MIN_SCORE : Nat := 0
def MAX_SCORE : Nat := 100
def DEFAULT_SCORE : Nat := 50

/-- State of `CreditScoreRegistry`: the profile mapping plus the
AccessControl role sets (`ORACLE_ROLE` members and
`DEFAULT_ADMIN_ROLE` members). -/
structure RegistryState : Type where
  profiles : Addr → CreditProfile
  oracles : Addr → Bool
  admins : Addr → Bool

/-- `createProfile(user, initialScore)` — oracle-only; rejects an
existing active profile, then a score outside `[MIN_SCORE, MAX_SCORE]`. -/
def createProfile (caller now user initialScore : Nat)
    (s : RegistryState) : Except Err RegistryState :=
  if ¬ s.oracles caller then .error .unauthorized
  else if (s.profiles user).isActive then .error .alreadyExists
  else if ¬ (MIN_SCORE ≤ initialScore ∧ initialScore ≤ MAX_SCORE) then
    .error .invalidScore
  else .ok { s with
    profiles := upd s.profiles user
      { score := initialScore, lastUpdated := now, totalLoans := 0,
        successfulRepayments := 0, defaultedLoans := 0, isActive := true } }

/-- `updateScore(user, newScore)` — oracle-only; rejects a score
outside the range, creates the profile when absent (the source
delegates to `createProfile`, whose remaining guards hold on that
path), else overwrites the score. -/
def updateScore (caller now user newScore : Nat)
    (s : RegistryState) : Except Err RegistryState :=
  if ¬ s.oracles caller then .error .unauthorized
  else if ¬ (MIN_SCORE ≤ newScore ∧ newScore ≤ MAX_SCORE) then
    .error .invalidScore
  else if ¬ (s.profiles user).isActive then
    createProfile caller now user newScore s
  else
    let p := s.profiles user
    .ok { s with
      profiles := upd s.profiles user
        { p with score := newScore, lastUpdated := now } }

/-- `recordLoan(user)` — oracle-only; requires an active profile;
increments `totalLoans`. -/
def recordLoan (caller now user : Nat) (s : RegistryState) :
    Except Err RegistryState :=
  let _ := now
  if ¬ s.oracles caller then .error .unauthorized
  else if ¬ (s.profiles user).isActive then .error .noProfile
  else
    let p := s.profiles user
    .ok { s with
      profiles := upd s.profiles user
        { p with totalLoans := p.totalLoans + 1 } }

/-- `recordRepayment(user)` — oracle-only; requires an active profile;
increments `successfulRepayments` and applies the fixed `+2` score
improvement, capped at `MAX_SCORE`; the score is untouched when it is
already at (or, in an unreachable raw state, above) `MAX_SCORE`. -/
def recordRepayment (caller now user : Nat) (s : RegistryState) :
    Except Err RegistryState :=
  if ¬ s.oracles caller then .error .unauthorized
  else if ¬ (s.profiles user).isActive then .error .noProfile
  else
    let p := s.profiles user
    let p₁ := { p with successfulRepayments := p.successfulRepayments + 1 }
    let currentScore := p₁.score
    let improvement := 2
    if currentScore < MAX_SCORE then
      let raw := currentScore + improvement
      let newScore := if raw > MAX_SCORE then MAX_SCORE else raw
      .ok { s with
        profiles := upd s.profiles user
          { p₁ with score := newScore, lastUpdated := now } }
    else
      .ok { s with profiles := upd s.profiles user p₁ }

/-- `recordDefault(user)` — oracle-only; requires an active profile;
increments `defaultedLoans` and applies the fixed `-15` penalty
floored at `MIN_SCORE`; the score is untouched when already at the
floor. -/
def recordDefault (caller now user : Nat) (s : RegistryState) :
    Except Err RegistryState :=
  if ¬ s.oracles caller then .error .unauthorized
  else if ¬ (s.profiles user).isActive then .error .noProfile
  else
    let p := s.profiles user
    let p₁ := { p with defaultedLoans := p.defaultedLoans + 1 }
    let currentScore := p₁.score
    let penalty := 15
    if currentScore > MIN_SCORE then
      let newScore := if currentScore > penalty then currentScore - penalty
                      else MIN_SCORE
      .ok { s with
        profiles := upd s.profiles user
          { p₁ with score := newScore, lastUpdated := now } }
    else
      .ok { s with profiles := upd s.profiles user p₁ }

/-- `getScore(user)` — view; `DEFAULT_SCORE` when no active profile. -/
def getScore (user : Nat) (s : RegistryState) : Nat :=
  if ¬ (s.profiles user).isActive then DEFAULT_SCORE
  else (s.profiles user).score

/-- `grantRole(ORACLE_ROLE, user)` — restricted to admins
(AccessControl `DEFAULT_ADMIN_ROLE`). -/
def grantOracle (caller user : Nat) (s : RegistryState) :
    Except Err RegistryState :=
  if ¬ s.admins caller then .error .unauthorized
  else .ok { s with oracles := upd s.oracles user true }

/-! ## ERC-20 value ledger (OpenZeppelin `ERC20` semantics, as used by
the repository's mock USDC token) -/

def UINT256_MAX : Nat := 2 ^ 256 - 1

/-- Balances and allowances of the fungible token the pool moves. -/
structure TokenState : Type where
  balances : Addr → Nat
  allowances : Addr → Addr → Nat

/-- OpenZeppelin `_transfer` / `_update`: zero-address guards,
fail on insufficient balance, then debit `from` and credit `to_`
(sequentially, so a self-transfer is a no-op). -/
def erc20Transfer (from_ to_ amount : Nat) (t : TokenState) :
    Except Err TokenState :=
  if from_ = 0 then .error .zeroAddress
  else if to_ = 0 then .error .zeroAddress
  else if t.balances from_ < amount then .error .transferFailed
  else
    let b₁ := upd t.balances from_ (t.balances from_ - amount)
    let b₂ := upd b₁ to_ (b₁ to_ + amount)
    .ok { t with balances := b₂ }

/-- OpenZeppelin `transferFrom` called by `spender`:
`_spendAllowance` (no decrement for the infinite allowance) then
`_transfer`. -/
def erc20TransferFrom (spender from_ to_ amount : Nat) (t : TokenState) :
    Except Err TokenState :=
  let current := t.allowances from_ spender
  if current = UINT256_MAX then erc20Transfer from_ to_ amount t
  else if current < amount then .error .transferFailed
  else
    erc20Transfer from_ to_ amount
      { t with allowances := upd2 t.allowances from_ spender (current - amount) }

/-- OpenZeppelin `approve` called by `owner`. -/
def erc20Approve (owner spender amount : Nat) (t : TokenState) :
    Except Err TokenState :=
  if owner = 0 then .error .zeroAddress
  else if spender = 0 then .error .zeroAddress
  else .ok { t with allowances := upd2 t.allowances owner spender amount }

/-! ## Reputation credential (`SenteBadge.sol`) -/

/-- `SenteBadge.BadgeData` (the token URI is presentation-only and
carries no state any claim observes; it is not modelled). -/
structure BadgeData : Type where
  creditScore : Nat
  repaymentsCount : Nat
  mintedAt : Nat
  tier : String
  deriving Repr, DecidableEq

instance : Inhabited BadgeData :=
  ⟨{ creditScore := 0, repaymentsCount := 0, mintedAt := 0, tier := "" }⟩

/-- `SenteBadge._determineTier`. -/
def determineTier (creditScore repaymentsCount : Nat) : String :=
  if creditScore ≥ 90 ∧ repaymentsCount ≥ 10 then "Platinum"
  else if creditScore ≥ 80 ∧ repaymentsCount ≥ 7 then "Gold"
  else if creditScore ≥ 70 ∧ repaymentsCount ≥ 5 then "Silver"
  else "Bronze"

/-- State of `SenteBadge`: ERC-721 ownership data (`ownerOf 0` and the
address `0` stand for "none"), the one-bit `hasBadge` flag, the badge
data, the authorized-minter set and the contract owner. -/
structure BadgeState : Type where
  nextTokenId : Nat
  badges : Nat → BadgeData
  hasBadge : Addr → Bool
  ownerOf : Nat → Addr
  balance : Addr → Nat
  authorizedMinters : Addr → Bool
  owner : Addr

/-- `SenteBadge.mintBadge(to_, creditScore, repaymentsCount)`:
minter/owner authorization, zero-address, `hasBadge` and minimum-score
guards, then `_safeMint` (balance and ownership update; the soulbound
`_update` override allows the mint path) and the badge bookkeeping.
Returns the minted token id alongside the new state. -/
def mintBadge (caller to_ creditScore repaymentsCount now : Nat)
    (b : BadgeState) : Except Err (BadgeState × Nat) :=
  if ¬ (b.authorizedMinters caller ∨ caller = b.owner) then
    .error .unauthorized
  else if to_ = 0 then .error .zeroAddress
  else if b.hasBadge to_ then .error .alreadyHasBadge
  else if creditScore < 60 then .error .badgeScoreTooLow
  else
    let tokenId := b.nextTokenId
    let tier := determineTier creditScore repaymentsCount
    .ok ({ b with
      nextTokenId := tokenId + 1,
      badges := upd b.badges tokenId
        { creditScore := creditScore, repaymentsCount := repaymentsCount,
          mintedAt := now, tier := tier },
      ownerOf := upd b.ownerOf tokenId to_,
      balance := upd b.balance to_ (b.balance to_ + 1),
      hasBadge := upd b.hasBadge to_ true }, tokenId)

/-- `SenteBadge.setAuthorizedMinter` — owner-only, nonzero minter. -/
def setAuthorizedMinter (caller minter : Nat) (authorized : Bool)
    (b : BadgeState) : Except Err BadgeState :=
  if caller ≠ b.owner then .error .unauthorized
  else if minter = 0 then .error .zeroAddress
  else .ok { b with authorizedMinters := upd b.authorizedMinters minter authorized }

/-! ## Lending pool (`LendingPool.sol`) -/

/-- `LendingPool.Loan`. -/
structure Loan : Type where
  amount : Nat
  interestAmount : Nat
  startTime : Nat
  dueDate : Nat
  isActive : Bool
  isRepaid : Bool
  borrower : Addr
  deriving Repr, DecidableEq

/-- The all-zero loan a Solidity array out-of-bounds access would
never produce; used only as the `List.getD` fallback under an
index-in-range guard. -/
instance : Inhabited Loan :=
  ⟨{ amount := 0, interestAmount := 0, startTime := 0, dueDate := 0,
     isActive := false, isRepaid := false, borrower := 0 }⟩

/-- `LendingPool.LenderInfo`. -/
structure LenderInfo : Type where
  deposited : Nat
  interestEarned : Nat
  lastDepositTime : Nat
  deriving Repr, DecidableEq

def LenderInfo.empty : LenderInfo :=
  { deposited := 0, interestEarned := 0, lastDepositTime := 0 }

/-- Pool constants (`MIN_LOAN_AMOUNT` etc.; durations in seconds). -/
def MIN_CREDIT_SCORE : Nat := 60
def MAX_LOAN_AMOUNT : Nat := 1000 * 10 ^ 6
def MIN_LOAN_AMOUNT : Nat := 10 * 10 ^ 6
def LOAN_DURATION : Nat := 30 * 86400
def REPAYMENT_GRACE_PERIOD : Nat := 7 * 86400

/-- State of `LendingPool`.  `self` is the contract's own address
(`address(this)`, fixed at deployment); `senteBadgeAddr` is the
`senteBadge` storage slot (`0` until `setSenteBadge`). -/
structure PoolState : Type where
  self : Addr
  owner : Addr
  senteBadgeAddr : Addr
  totalDeposits : Nat
  totalBorrowed : Nat
  totalRepaid : Nat
  lenders : Addr → LenderInfo
  borrowerLoans : Addr → List Loan
  activeLoanCount : Addr → Nat

/-- The whole on-chain system: the token ledger and the three
contracts the pool touches. -/
structure World : Type where
  token : TokenState
  registry : RegistryState
  badge : BadgeState
  pool : PoolState

/-- `LendingPool.calculateInterest(amount, creditScore)` — pure; the
`uint256` product `amount * rate` is overflow-checked as Solidity 0.8
does. -/
def calculateInterest (amount creditScore : Nat) : Except Err Nat :=
  let rate : Nat :=
    if creditScore ≥ 91 then 5
    else if creditScore ≥ 81 then 6
    else if creditScore ≥ 71 then 8
    else 10
  if amount * rate ≤ UINT256_MAX then .ok (amount * rate / 100)
  else .error .overflow

/-- `LendingPool.getAvailableLiquidity()` — the pool's token balance. -/
def getAvailableLiquidity (w : World) : Nat :=
  w.token.balances w.pool.self

/-- `LendingPool.getUtilizationRate()` — view; `0` when
`totalDeposits == 0`, else `(totalBorrowed - totalRepaid) * 100 /
totalDeposits` where the subtraction is Solidity 0.8 checked and
reverts when `totalRepaid > totalBorrowed`. -/
def getUtilizationRate (p : PoolState) : Except Err Nat :=
  if p.totalDeposits = 0 then .ok 0
  else if p.totalBorrowed < p.totalRepaid then .error .underflow
  else .ok ((p.totalBorrowed - p.totalRepaid) * 100 / p.totalDeposits)

/-- `LendingPool.setSenteBadge` — owner-only, nonzero address. -/
def setSenteBadge (caller addr : Nat) (w : World) : Except Err World :=
  if caller ≠ w.pool.owner then .error .unauthorized
  else if addr = 0 then .error .zeroAddress
  else .ok { w with pool := { w.pool with senteBadgeAddr := addr } }

/-- `LendingPool.deposit(amount)`: nonzero amount, pull `amount` from
the caller, then credit the caller's `LenderInfo` and
`totalDeposits`. -/
def deposit (caller now amount : Nat) (w : World) : Except Err World :=
  if amount = 0 then .error .invalidAmount
  else
    match erc20TransferFrom w.pool.self caller w.pool.self amount w.token with
    | .error e => .error e
    | .ok t =>
      let li := w.pool.lenders caller
      .ok { w with
        token := t,
        pool := { w.pool with
          lenders := upd w.pool.lenders caller
            { li with deposited := li.deposited + amount,
                      lastDepositTime := now },
          totalDeposits := w.pool.totalDeposits + amount } }

/-- `LendingPool.withdraw(amount)`: nonzero amount, caller's tracked
deposit and the pool's held balance must both cover `amount`; the
bookkeeping is decremented (the `totalDeposits` subtraction is
checked) and the tokens are pushed to the caller. -/
def withdraw (caller now amount : Nat) (w : World) : Except Err World :=
  let _ := now
  if amount = 0 then .error .invalidAmount
  else if (w.pool.lenders caller).deposited < amount then
    .error .insufficientBalance
  else if getAvailableLiquidity w < amount then
    .error .insufficientLiquidity
  else if w.pool.totalDeposits < amount then .error .underflow
  else
    let li := w.pool.lenders caller
    let w₁ := { w with
      pool := { w.pool with
        lenders := upd w.pool.lenders caller
          { li with deposited := li.deposited - amount },
        totalDeposits := w.pool.totalDeposits - amount } }
    match erc20Transfer w₁.pool.self caller amount w₁.token with
    | .error e => .error e
    | .ok t => .ok { w₁ with token := t }

/-- `LendingPool.requestLoan(amount)`: amount-range, no-active-loan,
credit-score and liquidity guards, then loan creation, bookkeeping,
`creditRegistry.recordLoan` (the pool is `msg.sender` there) and the
payout to the borrower. -/
def requestLoan (caller now amount : Nat) (w : World) : Except Err World :=
  if amount < MIN_LOAN_AMOUNT then .error .amountTooLow
  else if amount > MAX_LOAN_AMOUNT then .error .amountTooHigh
  else if w.pool.activeLoanCount caller ≠ 0 then .error .activeLoanExists
  else
    let creditScore := getScore caller w.registry
    if creditScore < MIN_CREDIT_SCORE then .error .creditScoreTooLow
    else if getAvailableLiquidity w < amount then
      .error .insufficientLiquidity
    else
      match calculateInterest amount creditScore with
      | .error e => .error e
      | .ok interestAmount =>
        let dueDate := now + LOAN_DURATION
        let newLoan : Loan :=
          { amount := amount, interestAmount := interestAmount,
            startTime := now, dueDate := dueDate,
            isActive := true, isRepaid := false, borrower := caller }
        let w₁ := { w with
          pool := { w.pool with
            borrowerLoans := upd w.pool.borrowerLoans caller
              (w.pool.borrowerLoans caller ++ [newLoan]),
            activeLoanCount := upd w.pool.activeLoanCount caller
              (w.pool.activeLoanCount caller + 1),
            totalBorrowed := w.pool.totalBorrowed + amount } }
        match recordLoan w₁.pool.self now caller w₁.registry with
        | .error e => .error e
        | .ok reg =>
          match erc20Transfer w₁.pool.self caller amount w₁.token with
          | .error e => .error e
          | .ok t => .ok { w₁ with registry := reg, token := t }

/-- The state the source writes on `repayLoan`'s past-grace branch
before its `revert`: the loan is deactivated, `activeLoanCount` is
decremented (checked subtraction) and `creditRegistry.recordDefault`
runs.  The `revert` that follows rolls all of this back, so
`repayLoan` discards this state; it is kept explicit because it is
the transition the specification believes persists. -/
def defaultPathState (caller now loanId : Nat) (w : World) :
    Except Err World :=
  let loan := (w.pool.borrowerLoans caller).getD loanId default
  if w.pool.activeLoanCount caller = 0 then .error .underflow
  else
    let w₁ := { w with
      pool := { w.pool with
        borrowerLoans := upd w.pool.borrowerLoans caller
          ((w.pool.borrowerLoans caller).set loanId
            { loan with isActive := false }),
        activeLoanCount := upd w.pool.activeLoanCount caller
          (w.pool.activeLoanCount caller - 1) } }
    match recordDefault w₁.pool.self now caller w₁.registry with
    | .error e => .error e
    | .ok reg => .ok { w₁ with registry := reg }

/-- `LendingPool._checkAndMintBadge(borrower)`: skip when no badge
contract is configured or the borrower already holds a badge
(`balanceOf > 0`); mint exactly when `successfulRepayments >= 3` and
`defaultedLoans == 0`; a revert inside `mintBadge` bubbles up. -/
def checkAndMintBadge (borrower now : Nat) (w : World) : Except Err World :=
  if w.pool.senteBadgeAddr = 0 then .ok w
  else if w.badge.balance borrower > 0 then .ok w
  else
    let profile := w.registry.profiles borrower
    if profile.successfulRepayments ≥ 3 ∧ profile.defaultedLoans = 0 then
      match mintBadge w.pool.self borrower profile.score
          profile.successfulRepayments now w.badge with
      | .error e => .error e
      | .ok (b, _tokenId) => .ok { w with badge := b }
    else .ok w

/-- `LendingPool.repayLoan(loanId)`: id/active/not-repaid/owner
guards; on the past-grace branch the source executes
`defaultPathState` and then `revert`s, so under EVM semantics the
call fails with `loanDefaulted` (or with `recordDefault`'s own error,
which fires first) and none of those writes survive; otherwise the
repayment is pulled in, the loan is closed, totals are updated,
`recordRepayment` runs and `_checkAndMintBadge` is attempted (its
revert aborts the whole call). -/
def repayLoan (caller now loanId : Nat) (w : World) : Except Err World :=
  if loanId ≥ (w.pool.borrowerLoans caller).length then .error .invalidLoanId
  else
    let loan := (w.pool.borrowerLoans caller).getD loanId default
    if ¬ loan.isActive then .error .loanNotActive
    else if loan.isRepaid then .error .loanAlreadyRepaid
    else if loan.borrower ≠ caller then .error .notLoanOwner
    else
      let totalRepayment := loan.amount + loan.interestAmount
      let isPastGracePeriod := now > loan.dueDate + REPAYMENT_GRACE_PERIOD
      if isPastGracePeriod then
        match defaultPathState caller now loanId w with
        | .error e => .error e
        | .ok _discarded => .error .loanDefaulted
      else
        match erc20TransferFrom w.pool.self caller w.pool.self
            totalRepayment w.token with
        | .error e => .error e
        | .ok t =>
          if w.pool.activeLoanCount caller = 0 then .error .underflow
          else
            let w₁ := { w with
              token := t,
              pool := { w.pool with
                borrowerLoans := upd w.pool.borrowerLoans caller
                  ((w.pool.borrowerLoans caller).set loanId
                    { loan with isActive := false, isRepaid := true }),
                activeLoanCount := upd w.pool.activeLoanCount caller
                  (w.pool.activeLoanCount caller - 1),
                totalRepaid := w.pool.totalRepaid + totalRepayment } }
            match recordRepayment w₁.pool.self now caller w₁.registry with
            | .error e => .error e
            | .ok reg => checkAndMintBadge caller now { w₁ with registry := reg }

/-- `LendingPool.emergencyWithdraw(amount)` — owner-only; requires the
pool's held balance to cover `amount`; pushes the tokens to the owner
and touches no pool bookkeeping. -/
def emergencyWithdraw (caller amount : Nat) (w : World) : Except Err World :=
  if caller ≠ w.pool.owner then .error .unauthorized
  else if getAvailableLiquidity w < amount then .error .insufficientBalance
  else
    match erc20Transfer w.pool.self w.pool.owner amount w.token with
    | .error e => .error e
    | .ok t => .ok { w with token := t }

/-! ## Transactions and reachability -/

/-- One externally submitted transaction against the system.  Each
carries the `block.timestamp` it executes at where the source reads
it. -/
inductive Act : Type
  | deposit (caller now amount : Nat)
  | withdraw (caller now amount : Nat)
  | requestLoan (caller now amount : Nat)
  | repayLoan (caller now loanId : Nat)
  | emergencyWithdraw (caller amount : Nat)
  | setSenteBadge (caller addr : Nat)
  | createProfile (caller now user score : Nat)
  | updateScore (caller now user score : Nat)
  | recordLoan (caller now user : Nat)
  | recordRepayment (caller now user : Nat)
  | recordDefault (caller now user : Nat)
  | grantOracle (caller user : Nat)
  | setAuthorizedMinter (caller minter : Nat) (authorized : Bool)
  | mintBadgeExt (caller to_ creditScore repaymentsCount now : Nat)
  | approve (caller spender amount : Nat)
  | transfer (caller to_ amount : Nat)

/-- Execute one transaction, producing the new world or a revert. -/
def exec (a : Act) (w : World) : Except Err World :=
  match a with
  | .deposit caller now amount => deposit caller now amount w
  | .withdraw caller now amount => withdraw caller now amount w
  | .requestLoan caller now amount => requestLoan caller now amount w
  | .repayLoan caller now loanId => repayLoan caller now loanId w
  | .emergencyWithdraw caller amount => emergencyWithdraw caller amount w
  | .setSenteBadge caller addr => setSenteBadge caller addr w
  | .createProfile caller now user score =>
    match createProfile caller now user score w.registry with
    | .error e => .error e
    | .ok reg => .ok { w with registry := reg }
  | .updateScore caller now user score =>
    match updateScore caller now user score w.registry with
    | .error e => .error e
    | .ok reg => .ok { w with registry := reg }
  | .recordLoan caller now user =>
    match recordLoan caller now user w.registry with
    | .error e => .error e
    | .ok reg => .ok { w with registry := reg }
  | .recordRepayment caller now user =>
    match recordRepayment caller now user w.registry with
    | .error e => .error e
    | .ok reg => .ok { w with registry := reg }
  | .recordDefault caller now user =>
    match recordDefault caller now user w.registry with
    | .error e => .error e
    | .ok reg => .ok { w with registry := reg }
  | .grantOracle caller user =>
    match grantOracle caller user w.registry with
    | .error e => .error e
    | .ok reg => .ok { w with registry := reg }
  | .setAuthorizedMinter caller minter authorized =>
    match setAuthorizedMinter caller minter authorized w.badge with
    | .error e => .error e
    | .ok b => .ok { w with badge := b }
  | .mintBadgeExt caller to_ creditScore repaymentsCount now =>
    match mintBadge caller to_ creditScore repaymentsCount now w.badge with
    | .error e => .error e
    | .ok (b, _) => .ok { w with badge := b }
  | .approve caller spender amount =>
    match erc20Approve caller spender amount w.token with
    | .error e => .error e
    | .ok t => .ok { w with token := t }
  | .transfer caller to_ amount =>
    match erc20Transfer caller to_ amount w.token with
    | .error e => .error e
    | .ok t => .ok { w with token := t }

/-- EVM transaction semantics: a revert leaves the pre-state in
place. -/
def step (a : Act) (w : World) : World :=
  match exec a w with
  | .ok w' => w'
  | .error _ => w

/-- Run a list of transactions in order. -/
def run (acts : List Act) (w : World) : World :=
  acts.foldl (fun s a => step a s) w

/-- The freshly deployed system: `deployer` deployed all three
contracts (so owns the pool and the badge contract and holds the
registry's admin and oracle roles), the pool's address is `self`,
nothing is deposited or lent, no badge is configured yet, and the
token ledger starts from an arbitrary pre-distribution `bal₀`. -/
def initWorld (deployer self : Nat) (bal₀ : Nat → Nat) : World :=
  { token := { balances := bal₀, allowances := fun _ _ => 0 },
    registry :=
      { profiles := fun _ => CreditProfile.empty,
        oracles := fun a => a == deployer,
        admins := fun a => a == deployer },
    badge :=
      { nextTokenId := 1, badges := fun _ => default,
        hasBadge := fun _ => false, ownerOf := fun _ => 0,
        balance := fun _ => 0, authorizedMinters := fun _ => false,
        owner := deployer },
    pool :=
      { self := self, owner := deployer, senteBadgeAddr := 0,
        totalDeposits := 0, totalBorrowed := 0, totalRepaid := 0,
        lenders := fun _ => LenderInfo.empty,
        borrowerLoans := fun _ => [],
        activeLoanCount := fun _ => 0 } }

/-! ## C6 — interest schedule -/

/-- The interest-rate table exactly as the specification words it
(score≥91→5%, 81–90→6%, 71–80→8%, else→10%), for comparison with the
source's `calculateInterest`. -/
def specRate (score : Nat) : Nat :=
  if score ≥ 91 then 5
  else if 81 ≤ score ∧ score ≤ 90 then 6
  else if 71 ≤ score ∧ score ≤ 80 then 8
  else 10

/-- C6: `calculateInterest(amount, score)` is pure and equals
`amount * rate / 100` with integer truncation, `rate` given by the
spec's table, whenever the `uint256` product cannot overflow (any
`amount` up to `UINT256_MAX / 10`, which covers every amount the pool
can pass); and for a fixed amount it is non-increasing in the score
over `[0, 100]`. -/
theorem c6_interest_schedule (amount s₁ s₂ : Nat)
    (hov : amount * 10 ≤ UINT256_MAX) (h₁₂ : s₁ ≤ s₂) (h₂ : s₂ ≤ 100) :
    (∀ score, calculateInterest amount score = .ok (amount * specRate score / 100)) ∧
    amount * specRate s₂ / 100 ≤ amount * specRate s₁ / 100 := by
  have hb : ∀ r : Nat, r ≤ 10 → amount * r ≤ UINT256_MAX :=
    fun r hr => le_trans (Nat.mul_le_mul_left amount hr) hov
  have hrate : ∀ score : Nat,
      (if score ≥ 91 then (5 : Nat) else if score ≥ 81 then 6
       else if score ≥ 71 then 8 else 10) = specRate score := by
    intro score
    unfold specRate
    split_ifs <;> omega
  have key : ∀ score,
      calculateInterest amount score = .ok (amount * specRate score / 100) := by
    intro score
    have hle : amount * specRate score ≤ UINT256_MAX := by
      apply hb
      unfold specRate
      split_ifs <;> omega
    simp only [calculateInterest]
    rw [hrate score, if_pos hle]
  have hanti : specRate s₂ ≤ specRate s₁ := by
    unfold specRate
    split_ifs <;> omega
  exact ⟨key, Nat.div_le_div_right (Nat.mul_le_mul_left amount hanti)⟩

/-- C6 witness: concrete instantiation (amount 100, scores 75 and 92);
in particular the 8%-tier value the spec's scenario expects. -/
theorem c6_interest_schedule_witness :
    100 * 10 ≤ UINT256_MAX ∧ (75 : Nat) ≤ 92 ∧ (92 : Nat) ≤ 100 ∧
    ((∀ score, calculateInterest 100 score = .ok (100 * specRate score / 100)) ∧
     100 * specRate 92 / 100 ≤ 100 * specRate 75 / 100) :=
  ⟨by norm_num [UINT256_MAX], by norm_num, by norm_num,
   c6_interest_schedule 100 75 92 (by norm_num [UINT256_MAX])
     (by norm_num) (by norm_num)⟩

/-! ## Registry-only transaction machine (for C3 and C4: arbitrary
sequences of oracle calls against `CreditScoreRegistry` alone) -/

inductive RegAct : Type
  | createProfile (caller now user score : Nat)
  | updateScore (caller now user score : Nat)
  | recordLoan (caller now user : Nat)
  | recordRepayment (caller now user : Nat)
  | recordDefault (caller now user : Nat)
  | grantOracle (caller user : Nat)

def regExec : RegAct → RegistryState → Except Err RegistryState
  | .createProfile c n u sc, s => createProfile c n u sc s
  | .updateScore c n u sc, s => updateScore c n u sc s
  | .recordLoan c n u, s => recordLoan c n u s
  | .recordRepayment c n u, s => recordRepayment c n u s
  | .recordDefault c n u, s => recordDefault c n u s
  | .grantOracle c u, s => grantOracle c u s

/-- A reverted registry call leaves the state unchanged. -/
def regStep (a : RegAct) (s : RegistryState) : RegistryState :=
  match regExec a s with
  | .ok s' => s'
  | .error _ => s

def regRun (acts : List RegAct) (s : RegistryState) : RegistryState :=
  acts.foldl (fun s a => regStep a s) s

/-- The freshly constructed registry: no profiles; the deployer holds
both `DEFAULT_ADMIN_ROLE` and `ORACLE_ROLE`. -/
def regInit (deployer : Nat) : RegistryState :=
  { profiles := fun _ => CreditProfile.empty,
    oracles := fun a => a == deployer,
    admins := fun a => a == deployer }

/-- Any single registry transaction preserves score ≤ 100 for every
principal. -/
theorem regStep_score_le (a : RegAct) (s : RegistryState)
    (h : ∀ v, (s.profiles v).score ≤ 100) (v : Nat) :
    ((regStep a s).profiles v).score ≤ 100 := by
  cases a with
  | createProfile c n u sc =>
    have hv := h v
    simp only [regStep, regExec, createProfile, MIN_SCORE, MAX_SCORE]
    split_ifs <;> simp_all [upd] <;> split_ifs <;> simp_all <;> omega
  | updateScore c n u sc =>
    have hv := h v
    simp only [regStep, regExec, updateScore, createProfile, MIN_SCORE,
      MAX_SCORE]
    split_ifs <;> simp_all [upd] <;> split_ifs <;> simp_all <;> omega
  | recordLoan c n u =>
    have hv := h v
    simp only [regStep, regExec, recordLoan]
    split_ifs <;> simp_all [upd] <;> split_ifs <;> simp_all
  | recordRepayment c n u =>
    have hv := h v
    have hu := h u
    simp only [regStep, regExec, recordRepayment, MIN_SCORE, MAX_SCORE]
    split_ifs <;> simp_all [upd] <;> split_ifs <;> simp_all <;> omega
  | recordDefault c n u =>
    have hv := h v
    have hu := h u
    simp only [regStep, regExec, recordDefault, MIN_SCORE, MAX_SCORE]
    split_ifs <;> simp [upd] <;> (try split_ifs) <;> (try simp) <;> omega
  | grantOracle c u =>
    have hv := h v
    simp only [regStep, regExec, grantOracle]
    split_ifs <;> simp_all

/-- Score ≤ 100 holds in every state reachable by registry
transactions from a state where it holds. -/
theorem regRun_score_le (acts : List RegAct) (s : RegistryState)
    (h : ∀ v, (s.profiles v).score ≤ 100) :
    ∀ v, ((regRun acts s).profiles v).score ≤ 100 := by
  induction acts generalizing s with
  | nil => exact h
  | cons a rest ih =>
    exact ih (regStep a s) (regStep_score_le a s h)

/-! ## C4 — score range invariant and exact bump / penalty -/

/-- C4: the registry keeps every score in `[0, 100]` (lower bound by
the `Nat` domain): `updateScore` and `createProfile` reject an
out-of-range score with `InvalidScore` and, returning an error, mutate
nothing; `recordRepayment` adds exactly 2 capped at 100;
`recordDefault` subtracts exactly 15 floored at 0 (truncated `Nat`
subtraction); and score ≤ 100 holds in every state reachable from a
fresh registry by any transaction sequence. -/
theorem c4_score_bounds (caller now sc u v : Nat) (s : RegistryState)
    (horacle : s.oracles caller = true)
    (hu : (s.profiles u).isActive = true)
    (hubound : (s.profiles u).score ≤ 100)
    (hv : (s.profiles v).isActive = false)
    (hsc : 100 < sc) :
    updateScore caller now v sc s = .error .invalidScore
    ∧ createProfile caller now v sc s = .error .invalidScore
    ∧ (∃ s', recordRepayment caller now u s = .ok s' ∧
        (s'.profiles u).score = min ((s.profiles u).score + 2) 100)
    ∧ (∃ s', recordDefault caller now u s = .ok s' ∧
        (s'.profiles u).score = (s.profiles u).score - 15)
    ∧ (∀ acts d w, ((regRun acts (regInit d)).profiles w).score ≤ 100) := by
  have hcond : ¬ (MIN_SCORE ≤ sc ∧ sc ≤ MAX_SCORE) := by
    simp only [MIN_SCORE, MAX_SCORE]
    omega
  refine ⟨?_, ?_, ?_, ?_, ?_⟩
  · simp [updateScore, horacle, hcond]
  · simp [createProfile, horacle, hv, hcond]
  · by_cases hlt : (s.profiles u).score < MAX_SCORE
    · simp only [recordRepayment, horacle, hu]
      simp only [MAX_SCORE] at hlt ⊢
      simp [hlt, upd, Nat.min_def] <;> split_ifs <;> omega
    · simp only [recordRepayment, horacle, hu]
      simp only [MAX_SCORE] at hlt ⊢
      simp [hlt, upd, Nat.min_def] <;> split_ifs <;> omega
  · by_cases hpos : (s.profiles u).score > MIN_SCORE
    · simp only [recordDefault, horacle, hu]
      simp only [MIN_SCORE] at hpos ⊢
      simp [hpos, upd, Nat.min_def] <;> (try split_ifs) <;> (try intro h15) <;> omega
    · simp only [recordDefault, horacle, hu]
      simp only [MIN_SCORE] at hpos ⊢
      simp [hpos, upd, Nat.min_def] <;> (try split_ifs) <;> (try intro h15) <;> omega
  · intro acts d w
    exact regRun_score_le acts (regInit d)
      (fun x => by simp [regInit, CreditProfile.empty]) w

/-- Concrete registry state for the C4 witness: oracle `7`, an active
profile for `4` with score 50, no profile for `5`. -/
def c4State : RegistryState :=
  { profiles := fun a =>
      if a = 4 then
        { score := 50, lastUpdated := 0, totalLoans := 1,
          successfulRepayments := 0, defaultedLoans := 0, isActive := true }
      else CreditProfile.empty,
    oracles := fun a => a == 7,
    admins := fun a => a == 7 }

/-- C4 witness: the hypotheses and conclusion of `c4_score_bounds` at
a concrete registry state and score 101. -/
theorem c4_score_bounds_witness :
    c4State.oracles 7 = true
    ∧ (c4State.profiles 4).isActive = true
    ∧ (c4State.profiles 4).score ≤ 100
    ∧ (c4State.profiles 5).isActive = false
    ∧ 100 < 101
    ∧ (updateScore 7 0 5 101 c4State = .error .invalidScore
      ∧ createProfile 7 0 5 101 c4State = .error .invalidScore
      ∧ (∃ s', recordRepayment 7 0 4 c4State = .ok s' ∧
          (s'.profiles 4).score = min ((c4State.profiles 4).score + 2) 100)
      ∧ (∃ s', recordDefault 7 0 4 c4State = .ok s' ∧
          (s'.profiles 4).score = (c4State.profiles 4).score - 15)
      ∧ (∀ acts d w, ((regRun acts (regInit d)).profiles w).score ≤ 100)) :=
  ⟨rfl, rfl, by decide, rfl, by decide,
   c4_score_bounds 7 0 101 4 5 c4State rfl rfl (by decide) rfl (by decide)⟩

/-! ## C3 — counter coherence -/

/-- C3 counterexample: an authorized oracle may call
`recordRepayment` on a fresh profile that has never taken a loan, so
after two perfectly authorized registry transactions the claimed
invariant `totalLoans ≥ successfulRepayments + defaultedLoans` is
false (`0 ≥ 1`). -/
theorem c3_counterexample :
    ((regRun [RegAct.createProfile 7 0 4 50, RegAct.recordRepayment 7 0 4]
        (regInit 7)).profiles 4).totalLoans <
    ((regRun [RegAct.createProfile 7 0 4 50, RegAct.recordRepayment 7 0 4]
        (regInit 7)).profiles 4).successfulRepayments +
    ((regRun [RegAct.createProfile 7 0 4 50, RegAct.recordRepayment 7 0 4]
        (regInit 7)).profiles 4).defaultedLoans := by decide

/-- Registry executions in which every (successful) `recordRepayment`
or `recordDefault` is issued only for a principal with an outstanding
loan — exactly the discipline the Lending Pool follows, since it calls
`recordLoan` at request time and at most one outcome call per loan at
termination. -/
inductive PoolDisciplined (d : Nat) : RegistryState → Prop
  | init : PoolDisciplined d (regInit d)
  | step (a : RegAct) (s : RegistryState) :
      PoolDisciplined d s →
      (∀ c n u, a = .recordRepayment c n u →
        (s.profiles u).successfulRepayments + (s.profiles u).defaultedLoans <
          (s.profiles u).totalLoans) →
      (∀ c n u, a = .recordDefault c n u →
        (s.profiles u).successfulRepayments + (s.profiles u).defaultedLoans <
          (s.profiles u).totalLoans) →
      PoolDisciplined d (regStep a s)

/-- C3 as amended: under arbitrary authorized oracle sequences the
claimed invariant is false (see the counterexample); it does hold at
every point of every execution respecting the pool's discipline of
recording outcomes only against an outstanding loan, and the lower
bound `successfulRepayments + defaultedLoans ≥ 0` is trivially true in
`Nat`. -/
theorem c3_counters_disciplined (d : Nat) (s : RegistryState)
    (h : PoolDisciplined d s) (u : Nat) :
    (s.profiles u).successfulRepayments + (s.profiles u).defaultedLoans ≤
      (s.profiles u).totalLoans := by
  induction h with
  | init => simp [regInit, CreditProfile.empty]
  | step a s hs hrep hdef ih =>
    cases a with
    | createProfile c n w sc =>
      rcases eq_or_ne u w with rfl | hne <;>
        simp only [regStep, regExec, createProfile, MIN_SCORE, MAX_SCORE] <;>
        split_ifs <;> simp [upd, *] <;> omega
    | updateScore c n w sc =>
      rcases eq_or_ne u w with rfl | hne <;>
        simp only [regStep, regExec, updateScore, createProfile, MIN_SCORE,
          MAX_SCORE] <;>
        split_ifs <;> simp [upd, *] <;> omega
    | recordLoan c n w =>
      rcases eq_or_ne u w with rfl | hne <;>
        simp only [regStep, regExec, recordLoan] <;>
        split_ifs <;> simp [upd, *] <;> omega
    | recordRepayment c n w =>
      have hcond := hrep c n w rfl
      rcases eq_or_ne u w with rfl | hne <;>
        simp only [regStep, regExec, recordRepayment, MIN_SCORE, MAX_SCORE] <;>
        split_ifs <;> simp [upd, *] <;> omega
    | recordDefault c n w =>
      have hcond := hdef c n w rfl
      rcases eq_or_ne u w with rfl | hne <;>
        simp only [regStep, regExec, recordDefault, MIN_SCORE, MAX_SCORE] <;>
        split_ifs <;> simp [upd, *] <;> omega
    | grantOracle c w =>
      simp only [regStep, regExec, grantOracle]
      split_ifs <;> (try simp [upd]) <;> exact ih

/-- C3 witness: a concrete disciplined execution — create a profile,
record a loan, record its repayment — and the coherence inequality at
its final state. -/
theorem c3_counters_disciplined_witness :
    PoolDisciplined 7
      (regStep (RegAct.recordRepayment 7 0 4)
        (regStep (RegAct.recordLoan 7 0 4)
          (regStep (RegAct.createProfile 7 0 4 50) (regInit 7))))
    ∧ (((regStep (RegAct.recordRepayment 7 0 4)
          (regStep (RegAct.recordLoan 7 0 4)
            (regStep (RegAct.createProfile 7 0 4 50)
              (regInit 7)))).profiles 4).successfulRepayments +
       ((regStep (RegAct.recordRepayment 7 0 4)
          (regStep (RegAct.recordLoan 7 0 4)
            (regStep (RegAct.createProfile 7 0 4 50)
              (regInit 7)))).profiles 4).defaultedLoans ≤
       ((regStep (RegAct.recordRepayment 7 0 4)
          (regStep (RegAct.recordLoan 7 0 4)
            (regStep (RegAct.createProfile 7 0 4 50)
              (regInit 7)))).profiles 4).totalLoans) := by
  have hd : PoolDisciplined 7
      (regStep (RegAct.recordRepayment 7 0 4)
        (regStep (RegAct.recordLoan 7 0 4)
          (regStep (RegAct.createProfile 7 0 4 50) (regInit 7)))) := by
    apply PoolDisciplined.step
    · apply PoolDisciplined.step
      · apply PoolDisciplined.step
        · exact PoolDisciplined.init
        · intro c n u h
          cases h
        · intro c n u h
          cases h
      · intro c n u h
        cases h
      · intro c n u h
        cases h
    · intro c n u h
      cases h
      decide
    · intro c n u h
      cases h
  exact ⟨hd, c3_counters_disciplined 7 _ hd 4⟩

/-! ## ERC-20 helper lemmas -/

/-- A transfer with both endpoints nonzero and sufficient balance
succeeds, debiting then crediting. -/
theorem erc20Transfer_ok (from_ to_ amount : Nat) (t : TokenState)
    (hf : from_ ≠ 0) (ht : to_ ≠ 0) (hbal : amount ≤ t.balances from_) :
    erc20Transfer from_ to_ amount t =
      .ok { t with
        balances := upd (upd t.balances from_ (t.balances from_ - amount)) to_
          ((upd t.balances from_ (t.balances from_ - amount)) to_ + amount) } := by
  simp only [erc20Transfer]
  split_ifs <;> (try omega) <;> rfl

/-- A `transferFrom` with both endpoints nonzero, sufficient balance
and sufficient allowance succeeds, and its effect on balances does not
depend on the allowance branch taken. -/
theorem erc20TransferFrom_ok (spender from_ to_ amount : Nat) (t : TokenState)
    (hf : from_ ≠ 0) (ht : to_ ≠ 0)
    (hallow : amount ≤ t.allowances from_ spender)
    (hbal : amount ≤ t.balances from_) :
    ∃ t', erc20TransferFrom spender from_ to_ amount t = .ok t' ∧
      t'.balances = upd (upd t.balances from_ (t.balances from_ - amount)) to_
        ((upd t.balances from_ (t.balances from_ - amount)) to_ + amount) := by
  simp only [erc20TransferFrom, erc20Transfer]
  split_ifs <;> (try omega) <;> exact ⟨_, rfl, rfl⟩

/-! ## C9 — utilization rate -/

/-- Initial world for the C9 trace: deployer `2`, pool address `1`,
lender `3` holding 10^10 token units, borrower `4` holding 10^9. -/
def c9Init : World :=
  initWorld 2 1 (fun a => if a = 3 then 10 ^ 10 else if a = 4 then 10 ^ 9 else 0)

/-- C9 trace: grant the pool the oracle role, create the borrower's
profile at score 75, fund the pool with 5000 USDC, take a 100 USDC
loan (8% tier → 8 USDC interest) and repay it in time. -/
def c9Trace : List Act :=
  [ .grantOracle 2 1,
    .createProfile 2 0 4 75,
    .approve 3 1 (5000 * 10 ^ 6),
    .deposit 3 0 (5000 * 10 ^ 6),
    .requestLoan 4 0 (100 * 10 ^ 6),
    .approve 4 1 (108 * 10 ^ 6),
    .repayLoan 4 10 0 ]

/-- C9 counterexample: in the perfectly ordinary reachable state after
one interest-bearing repayment, `totalRepaid` (108 USDC, interest
included) exceeds `totalBorrowed` (100 USDC) while `totalDeposits ≠ 0`,
so `getUtilizationRate()` hits the Solidity 0.8 checked-subtraction
underflow and reverts — contradicting the claim that it never fails on
reachable states. -/
theorem c9_counterexample :
    getUtilizationRate (run c9Trace c9Init).pool = .error .underflow ∧
    (run c9Trace c9Init).pool.totalBorrowed = 100 * 10 ^ 6 ∧
    (run c9Trace c9Init).pool.totalRepaid = 108 * 10 ^ 6 ∧
    (run c9Trace c9Init).pool.totalDeposits = 5000 * 10 ^ 6 := by
  refine ⟨by rfl, by decide, by decide, by decide⟩

/-- C9 as amended: `getUtilizationRate` is a pure read (a function of
the pool bookkeeping alone); it returns `0` when `totalDeposits == 0`,
returns `(totalBorrowed - totalRepaid) * 100 / totalDeposits` with
integer truncation whenever `totalRepaid ≤ totalBorrowed`, but *fails*
(checked-subtraction revert) whenever `totalRepaid > totalBorrowed`
and `totalDeposits ≠ 0` — which is reachable as soon as any loan is
repaid with interest. -/
theorem c9_utilization_amended (p q r : PoolState)
    (hp : p.totalDeposits = 0)
    (hq : q.totalRepaid ≤ q.totalBorrowed)
    (hr₁ : r.totalDeposits ≠ 0) (hr₂ : r.totalBorrowed < r.totalRepaid) :
    getUtilizationRate p = .ok 0
    ∧ getUtilizationRate q =
        .ok ((q.totalBorrowed - q.totalRepaid) * 100 / q.totalDeposits)
    ∧ getUtilizationRate r = .error .underflow := by
  refine ⟨?_, ?_, ?_⟩
  · simp [getUtilizationRate, hp]
  · unfold getUtilizationRate
    split_ifs with h1 h2
    · simp [h1]
    · omega
    · rfl
  · simp [getUtilizationRate, hr₁, hr₂]

/-- C9 amended witness: the fresh pool for the zero and formula cases
and the reachable post-repayment pool for the failure case. -/
theorem c9_utilization_amended_witness :
    c9Init.pool.totalDeposits = 0
    ∧ c9Init.pool.totalRepaid ≤ c9Init.pool.totalBorrowed
    ∧ (run c9Trace c9Init).pool.totalDeposits ≠ 0
    ∧ (run c9Trace c9Init).pool.totalBorrowed <
        (run c9Trace c9Init).pool.totalRepaid
    ∧ (getUtilizationRate c9Init.pool = .ok 0
      ∧ getUtilizationRate c9Init.pool =
          .ok ((c9Init.pool.totalBorrowed - c9Init.pool.totalRepaid) * 100 /
            c9Init.pool.totalDeposits)
      ∧ getUtilizationRate (run c9Trace c9Init).pool = .error .underflow) :=
  ⟨by rfl, by decide, by decide, by decide,
   c9_utilization_amended c9Init.pool c9Init.pool (run c9Trace c9Init).pool
     (by decide) (by decide) (by decide) (by decide)⟩

/-! ## C8 — deposit/withdraw round trip -/

/-- C8: for every world and amount `X` that `deposit` accepts (nonzero
amount, nonzero endpoints, the caller's balance and allowance cover
`X`), `deposit(X)` followed immediately by `withdraw(X)` succeeds and
restores the caller's `deposited` field and the pool's `totalDeposits`
to their prior values. -/
theorem c8_deposit_withdraw_roundtrip (caller now now' X : Nat) (w : World)
    (hc0 : caller ≠ 0) (hp0 : w.pool.self ≠ 0) (hX : X ≠ 0)
    (hallow : X ≤ w.token.allowances caller w.pool.self)
    (hbal : X ≤ w.token.balances caller) :
    ∃ w₁ w₂,
      deposit caller now X w = .ok w₁ ∧
      withdraw caller now' X w₁ = .ok w₂ ∧
      (w₂.pool.lenders caller).deposited = (w.pool.lenders caller).deposited ∧
      w₂.pool.totalDeposits = w.pool.totalDeposits := by
  obtain ⟨t', htf, hbalances⟩ :=
    erc20TransferFrom_ok w.pool.self caller w.pool.self X w.token hc0 hp0
      hallow hbal
  have hdep : deposit caller now X w = .ok { w with
      token := t',
      pool := { w.pool with
        lenders := upd w.pool.lenders caller
          { w.pool.lenders caller with
            deposited := (w.pool.lenders caller).deposited + X,
            lastDepositTime := now },
        totalDeposits := w.pool.totalDeposits + X } } := by
    simp only [deposit, htf]
    rw [if_neg hX]
  have hbal2 : X ≤ t'.balances w.pool.self := by
    rw [hbalances, upd_same]
    exact Nat.le_add_left X _
  have htr2 := erc20Transfer_ok w.pool.self caller X t' hp0 hc0 hbal2
  have hwd : ∃ w₂, withdraw caller now' X { w with
      token := t',
      pool := { w.pool with
        lenders := upd w.pool.lenders caller
          { w.pool.lenders caller with
            deposited := (w.pool.lenders caller).deposited + X,
            lastDepositTime := now },
        totalDeposits := w.pool.totalDeposits + X } } = .ok w₂ ∧
      (w₂.pool.lenders caller).deposited = (w.pool.lenders caller).deposited ∧
      w₂.pool.totalDeposits = w.pool.totalDeposits := by
    simp only [withdraw, getAvailableLiquidity, upd_same, htr2]
    rw [if_neg hX, if_neg (by simp [upd] <;> omega), if_neg (by omega),
      if_neg (by omega)]
    exact ⟨_, rfl, by simp [upd], by simp⟩
  obtain ⟨w₂, h1, h2, h3⟩ := hwd
  exact ⟨_, w₂, hdep, h1, h2, h3⟩

/-- Concrete world for the C8 witness: fresh deployment, lender `3`
holding 10^10 units with a matching allowance towards the pool. -/
def c8State : World :=
  step (.approve 3 1 (10 ^ 10))
    (initWorld 2 1 (fun a => if a = 3 then 10 ^ 10 else 0))

/-- C8 witness: the hypotheses and the round trip at a concrete world
and amount. -/
theorem c8_deposit_withdraw_roundtrip_witness :
    (3 : Nat) ≠ 0 ∧ c8State.pool.self ≠ 0 ∧ (5000 * 10 ^ 6 : Nat) ≠ 0
    ∧ 5000 * 10 ^ 6 ≤ c8State.token.allowances 3 c8State.pool.self
    ∧ 5000 * 10 ^ 6 ≤ c8State.token.balances 3
    ∧ (∃ w₁ w₂,
        deposit 3 0 (5000 * 10 ^ 6) c8State = .ok w₁ ∧
        withdraw 3 1 (5000 * 10 ^ 6) w₁ = .ok w₂ ∧
        (w₂.pool.lenders 3).deposited = (c8State.pool.lenders 3).deposited ∧
        w₂.pool.totalDeposits = c8State.pool.totalDeposits) :=
  ⟨by decide, by decide, by decide, by decide, by decide,
   c8_deposit_withdraw_roundtrip 3 0 1 (5000 * 10 ^ 6) c8State (by decide)
     (by decide) (by decide) (by decide) (by decide)⟩

/-! ## C10 — emergencyWithdraw frame and solvency -/

/-- Initial world for the C10 trace: deployer `2`, pool `1`, lender
`3` holding 10^10 token units. -/
def c10Init : World := initWorld 2 1 (fun a => if a = 3 then 10 ^ 10 else 0)

/-- C10 trace: the lender deposits 5000 USDC, then the owner drains
the pool with `emergencyWithdraw`. -/
def c10Trace : List Act :=
  [ .approve 3 1 (5000 * 10 ^ 6),
    .deposit 3 0 (5000 * 10 ^ 6),
    .emergencyWithdraw 2 (5000 * 10 ^ 6) ]

/-- C10: for any state and any `amount` within the pool's held
balance, the owner's `emergencyWithdraw(amount)` succeeds and moves
`amount` out of pool custody while leaving the whole pool bookkeeping
(`totalDeposits`, every `LenderInfo`, every loan record), the registry
and the badge state untouched; and concretely, after a lender deposit
of 5000 USDC and an owner drain of the same amount, the pool's held
balance plus its outstanding loans no longer covers the tracked
deposits — the solvency relation is not preserved by every
operation. -/
theorem c10_emergencyWithdraw_frame (w : World) (amount : Nat)
    (hne : w.pool.owner ≠ w.pool.self) (ho0 : w.pool.owner ≠ 0)
    (hs0 : w.pool.self ≠ 0) (hbal : amount ≤ getAvailableLiquidity w) :
    (∃ w', emergencyWithdraw w.pool.owner amount w = .ok w' ∧
      w'.pool = w.pool ∧ w'.registry = w.registry ∧ w'.badge = w.badge ∧
      w'.token.balances w.pool.self = w.token.balances w.pool.self - amount)
    ∧ ((run c10Trace c10Init).token.balances 1 +
        ((run c10Trace c10Init).pool.totalBorrowed -
          (run c10Trace c10Init).pool.totalRepaid) <
        (run c10Trace c10Init).pool.totalDeposits) := by
  simp only [getAvailableLiquidity] at hbal
  have htr := erc20Transfer_ok w.pool.self w.pool.owner amount w.token hs0
    ho0 hbal
  have hne' : w.pool.self ≠ w.pool.owner := Ne.symm hne
  have hmain : ∃ w', emergencyWithdraw w.pool.owner amount w = .ok w' ∧
      w'.pool = w.pool ∧ w'.registry = w.registry ∧ w'.badge = w.badge ∧
      w'.token.balances w.pool.self =
        w.token.balances w.pool.self - amount := by
    simp only [emergencyWithdraw, getAvailableLiquidity, htr]
    rw [if_neg (by simp), if_neg (by omega)]
    exact ⟨_, rfl, rfl, rfl, rfl, by simp [upd, hne']⟩
  exact ⟨hmain, by decide⟩

/-- C10 witness: the state just before the drain, with all hypotheses
and the conclusion instantiated. -/
theorem c10_emergencyWithdraw_frame_witness :
    (run [Act.approve 3 1 (5000 * 10 ^ 6),
          Act.deposit 3 0 (5000 * 10 ^ 6)] c10Init).pool.owner ≠
      (run [Act.approve 3 1 (5000 * 10 ^ 6),
            Act.deposit 3 0 (5000 * 10 ^ 6)] c10Init).pool.self
    ∧ 5000 * 10 ^ 6 ≤ getAvailableLiquidity
        (run [Act.approve 3 1 (5000 * 10 ^ 6),
              Act.deposit 3 0 (5000 * 10 ^ 6)] c10Init)
    ∧ ((∃ w', emergencyWithdraw
          (run [Act.approve 3 1 (5000 * 10 ^ 6),
                Act.deposit 3 0 (5000 * 10 ^ 6)] c10Init).pool.owner
          (5000 * 10 ^ 6)
          (run [Act.approve 3 1 (5000 * 10 ^ 6),
                Act.deposit 3 0 (5000 * 10 ^ 6)] c10Init) = .ok w' ∧
        w'.pool = (run [Act.approve 3 1 (5000 * 10 ^ 6),
                        Act.deposit 3 0 (5000 * 10 ^ 6)] c10Init).pool ∧
        w'.registry = (run [Act.approve 3 1 (5000 * 10 ^ 6),
                            Act.deposit 3 0 (5000 * 10 ^ 6)] c10Init).registry ∧
        w'.badge = (run [Act.approve 3 1 (5000 * 10 ^ 6),
                         Act.deposit 3 0 (5000 * 10 ^ 6)] c10Init).badge ∧
        w'.token.balances (run [Act.approve 3 1 (5000 * 10 ^ 6),
                                Act.deposit 3 0 (5000 * 10 ^ 6)]
            c10Init).pool.self =
          (run [Act.approve 3 1 (5000 * 10 ^ 6),
                Act.deposit 3 0 (5000 * 10 ^ 6)]
              c10Init).token.balances
            (run [Act.approve 3 1 (5000 * 10 ^ 6),
                  Act.deposit 3 0 (5000 * 10 ^ 6)] c10Init).pool.self -
            5000 * 10 ^ 6)
      ∧ ((run c10Trace c10Init).token.balances 1 +
          ((run c10Trace c10Init).pool.totalBorrowed -
            (run c10Trace c10Init).pool.totalRepaid) <
          (run c10Trace c10Init).pool.totalDeposits)) :=
  ⟨by decide, by decide,
   c10_emergencyWithdraw_frame
     (run [Act.approve 3 1 (5000 * 10 ^ 6),
           Act.deposit 3 0 (5000 * 10 ^ 6)] c10Init)
     (5000 * 10 ^ 6) (by decide) (by decide) (by decide) (by decide)⟩

/-! ## C7 — idempotence of the automatic badge-mint trigger -/

/-- C7: when the automatic post-repayment trigger actually mints (the
badge balance changed), the eligibility condition
`successfulRepayments ≥ 3 ∧ defaultedLoans == 0` held beforehand, the
principal ends with exactly one stored credential (ERC-721 balance 1,
has-badge flag set), and running the trigger a second time is a quiet
no-op on the same state — no error, no state change. -/
theorem c7_mint_idempotent (w w' : World) (b now now' : Nat)
    (hmint : checkAndMintBadge b now w = .ok w')
    (hchg : w'.badge.balance b ≠ w.badge.balance b) :
    ((w.registry.profiles b).successfulRepayments ≥ 3
      ∧ (w.registry.profiles b).defaultedLoans = 0)
    ∧ w'.badge.balance b = 1
    ∧ w'.badge.hasBadge b = true
    ∧ checkAndMintBadge b now' w' = .ok w' := by
  by_cases h0 : w.pool.senteBadgeAddr = 0
  · simp [checkAndMintBadge, h0] at hmint
    rw [← hmint] at hchg
    exact absurd rfl hchg
  by_cases h1 : w.badge.balance b > 0
  · simp [checkAndMintBadge, h0, h1] at hmint
    rw [← hmint] at hchg
    exact absurd rfl hchg
  by_cases h2 : (w.registry.profiles b).successfulRepayments ≥ 3
      ∧ (w.registry.profiles b).defaultedLoans = 0
  · unfold checkAndMintBadge at hmint
    rw [if_neg h0, if_neg h1, if_pos h2] at hmint
    cases hmb : mintBadge w.pool.self b (w.registry.profiles b).score
        (w.registry.profiles b).successfulRepayments now w.badge with
    | error e =>
      rw [hmb] at hmint
      cases hmint
    | ok pr =>
      rw [hmb] at hmint
      obtain ⟨b2, tid⟩ := pr
      simp only [mintBadge] at hmb
      split_ifs at hmb with h3 h4 h5 h6 <;> cases hmb
      cases hmint
      have hbal0 : w.badge.balance b = 0 := by omega
      refine ⟨h2, ?_, ?_, ?_⟩
      · simp [upd, hbal0]
      · simp [upd]
      · simp only [checkAndMintBadge]
        rw [if_neg h0]
        rw [if_pos (by simp [upd])]
  · simp only [checkAndMintBadge] at hmint
    rw [if_neg h0, if_neg (by omega), if_neg h2] at hmint
    cases hmint
    exact absurd rfl hchg

/-- Concrete world for the C7 witness: badge contract configured at
address 5, the pool (address 1) authorized to mint, principal 4 with
three clean repayments and score 75, and no badge yet. -/
def c7State : World :=
  { token := { balances := fun _ => 0, allowances := fun _ _ => 0 },
    registry :=
      { profiles := fun a =>
          if a = 4 then
            { score := 75, lastUpdated := 0, totalLoans := 3,
              successfulRepayments := 3, defaultedLoans := 0,
              isActive := true }
          else CreditProfile.empty,
        oracles := fun a => a == 2,
        admins := fun a => a == 2 },
    badge :=
      { nextTokenId := 1, badges := fun _ => default,
        hasBadge := fun _ => false, ownerOf := fun _ => 0,
        balance := fun _ => 0,
        authorizedMinters := fun a => a == 1, owner := 2 },
    pool :=
      { self := 1, owner := 2, senteBadgeAddr := 5,
        totalDeposits := 0, totalBorrowed := 0, totalRepaid := 0,
        lenders := fun _ => LenderInfo.empty,
        borrowerLoans := fun _ => [],
        activeLoanCount := fun _ => 0 } }

/-- C7 witness: at `c7State` the trigger mints, and the theorem's
conclusion holds for that concrete run. -/
theorem c7_mint_idempotent_witness :
    ∃ w', checkAndMintBadge 4 0 c7State = .ok w'
      ∧ w'.badge.balance 4 ≠ c7State.badge.balance 4
      ∧ (((c7State.registry.profiles 4).successfulRepayments ≥ 3
          ∧ (c7State.registry.profiles 4).defaultedLoans = 0)
        ∧ w'.badge.balance 4 = 1
        ∧ w'.badge.hasBadge 4 = true
        ∧ checkAndMintBadge 4 1 w' = .ok w') :=
  ⟨_, rfl, by decide, c7_mint_idempotent c7State _ 4 0 1 rfl (by decide)⟩

/-! ## C1 — late repayment default path -/

/-- Initial world for the C1 trace: deployer `2`, pool `1`, lender `3`
(10^10 units), borrower `4` (10^9 units). -/
def c1Init : World :=
  initWorld 2 1 (fun a => if a = 3 then 10 ^ 10 else if a = 4 then 10 ^ 9 else 0)

/-- C1 trace: configure oracle role, create the borrower's profile,
fund the pool, take a 100 USDC loan at `t = 0` (due `t = 2592000`). -/
def c1Trace : List Act :=
  [ .grantOracle 2 1,
    .createProfile 2 0 4 75,
    .approve 3 1 (5000 * 10 ^ 6),
    .deposit 3 0 (5000 * 10 ^ 6),
    .requestLoan 4 0 (100 * 10 ^ 6) ]

/-- C1, evaluated at the failing input (the loan's owner calls
`repayLoan(0)` at `t = dueDate + gracePeriod + 1`): the call does fail,
and the source does *write* the intended transition
(`defaultPathState` — loan deactivated, Registry default recorded),
but the `revert` that signals the failure rolls the whole transaction
back, so after the call the loan is still `Active`, `defaultedLoans`
is still 0 and the score penalty never happened: the state changes do
NOT persist, contradicting the claim (and the spec's intent, which the
source's own dead `emit LoanDefaulted` just before the `revert`
confirms). -/
theorem c1_default_rollback :
    repayLoan 4 (2592000 + 604800 + 1) 0 (run c1Trace c1Init) =
      .error .loanDefaulted
    ∧ step (.repayLoan 4 (2592000 + 604800 + 1) 0) (run c1Trace c1Init) =
        run c1Trace c1Init
    ∧ (∃ wIntent,
        defaultPathState 4 (2592000 + 604800 + 1) 0 (run c1Trace c1Init) =
          .ok wIntent
        ∧ (wIntent.registry.profiles 4).defaultedLoans = 1
        ∧ (wIntent.registry.profiles 4).score = 60
        ∧ ((wIntent.pool.borrowerLoans 4).getD 0 default).isActive = false)
    ∧ (((step (.repayLoan 4 (2592000 + 604800 + 1) 0)
          (run c1Trace c1Init)).pool.borrowerLoans 4).getD 0
            default).isActive = true
    ∧ ((step (.repayLoan 4 (2592000 + 604800 + 1) 0)
          (run c1Trace c1Init)).registry.profiles 4).defaultedLoans = 0
    ∧ ((step (.repayLoan 4 (2592000 + 604800 + 1) 0)
          (run c1Trace c1Init)).registry.profiles 4).score = 75 := by
  refine ⟨by rfl, by rfl, ⟨_, by rfl, by decide, by decide, by decide⟩,
    by decide, by decide, by decide⟩

/-! ## C2 — badge-mint revert rolls back the repayment -/

/-- Initial world for the C2 trace. -/
def c2Init : World :=
  initWorld 2 1 (fun a => if a = 3 then 10 ^ 10 else if a = 4 then 10 ^ 9 else 0)

/-- C2 trace: full deployment wiring (oracle role, badge address,
pool authorized as minter), two clean loan/repay cycles (score
75→77→79, `successfulRepayments = 2`), a third loan, then the oracle
drops the score to 10, and the borrower approves the repayment
funds. -/
def c2Trace : List Act :=
  [ .grantOracle 2 1,
    .setSenteBadge 2 5,
    .setAuthorizedMinter 2 1 true,
    .createProfile 2 0 4 75,
    .approve 3 1 (10 ^ 10),
    .deposit 3 0 (5000 * 10 ^ 6),
    .requestLoan 4 0 (100 * 10 ^ 6),
    .approve 4 1 (108 * 10 ^ 6),
    .repayLoan 4 5 0,
    .requestLoan 4 10 (100 * 10 ^ 6),
    .approve 4 1 (108 * 10 ^ 6),
    .repayLoan 4 15 1,
    .requestLoan 4 20 (100 * 10 ^ 6),
    .updateScore 2 25 4 10,
    .approve 4 1 (108 * 10 ^ 6) ]

/-- C2, evaluated at the failing input: the borrower repays loan 2
well before the grace deadline with funds and allowance in place (the
loan is active, `successfulRepayments = 2`, `defaultedLoans = 0`,
score 10 after an oracle update).  Inside the call the repayment
succeeds and `recordRepayment` makes `successfulRepayments = 3`, so
`_checkAndMintBadge` attempts `mintBadge`, whose
`require(creditScore >= 60)` guard reverts (score 12 < 60); with no
try/catch, that revert aborts the whole `repayLoan`, rolling the
repayment itself back: the loan stays `Active` and the Registry still
shows 2 repayments — contradicting the claim that a badge-side-effect
failure cannot roll back the repayment. -/
theorem c2_badge_revert_rolls_back_repayment :
    ((run c2Trace c2Init).pool.borrowerLoans 4).length = 3
    ∧ (((run c2Trace c2Init).pool.borrowerLoans 4).getD 2 default).isActive =
        true
    ∧ (((run c2Trace c2Init).pool.borrowerLoans 4).getD 2 default).dueDate =
        20 + 2592000
    ∧ ((run c2Trace c2Init).registry.profiles 4).successfulRepayments = 2
    ∧ ((run c2Trace c2Init).registry.profiles 4).defaultedLoans = 0
    ∧ ((run c2Trace c2Init).registry.profiles 4).score = 10
    ∧ repayLoan 4 30 2 (run c2Trace c2Init) = .error .badgeScoreTooLow
    ∧ step (.repayLoan 4 30 2) (run c2Trace c2Init) = run c2Trace c2Init
    ∧ (((step (.repayLoan 4 30 2)
          (run c2Trace c2Init)).pool.borrowerLoans 4).getD 2
            default).isRepaid = false
    ∧ ((step (.repayLoan 4 30 2)
          (run c2Trace c2Init)).registry.profiles 4).successfulRepayments =
        2 := by
  refine ⟨by decide, by decide, by decide, by decide, by decide, by decide,
    by rfl, by rfl, by decide, by decide⟩

/-! ## C5 — at most one active loan, terminal loans frozen -/

/-- Number of `Active` loans in a borrower's loan list. -/
def countActive : List Loan → Nat
  | [] => 0
  | l :: ls => (if l.isActive then 1 else 0) + countActive ls

theorem countActive_append_one (ls : List Loan) (l : Loan) :
    countActive (ls ++ [l]) = countActive ls + (if l.isActive then 1 else 0) := by
  induction ls with
  | nil => simp [countActive]
  | cons hd tl ih => simp [countActive, ih]; omega

theorem countActive_set (ls : List Loan) (i : Nat) (l' : Loan)
    (hi : i < ls.length) (ha : (ls.getD i default).isActive = true)
    (hl : l'.isActive = false) :
    countActive (ls.set i l') + 1 = countActive ls := by
  induction ls generalizing i with
  | nil => simp at hi
  | cons hd tl ih =>
    cases i with
    | zero =>
      simp [List.getD] at ha
      simp [countActive, ha, hl]
      omega
    | succ j =>
      simp at hi
      simp [List.getD] at ha
      have := ih j hi (by simpa [List.getD] using ha)
      simp [countActive, List.set]
      omega

theorem getD_append_left (ls ls' : List Loan) (i : Nat) (hi : i < ls.length) :
    (ls ++ ls').getD i default = ls.getD i default := by
  induction ls generalizing i with
  | nil => simp at hi
  | cons hd tl ih =>
    cases i with
    | zero => rfl
    | succ j =>
      simp at hi
      simpa [List.getD] using ih j hi

theorem getD_set_ne (ls : List Loan) (j i : Nat) (l' : Loan) (h : i ≠ j) :
    (ls.set j l').getD i default = ls.getD i default := by
  induction ls generalizing i j with
  | nil => simp [List.set]
  | cons hd tl ih =>
    cases j with
    | zero =>
      cases i with
      | zero => exact absurd rfl h
      | succ i' => rfl
    | succ j' =>
      cases i with
      | zero => rfl
      | succ i' =>
        simpa [List.getD] using ih j' i' (by omega)

/-- The C5 inductive invariant: `activeLoanCount` tracks the number of
`Active` loans of each borrower, and that number never exceeds 1. -/
def LoanInv (w : World) : Prop :=
  ∀ b, w.pool.activeLoanCount b = countActive (w.pool.borrowerLoans b)
    ∧ countActive (w.pool.borrowerLoans b) ≤ 1

/-- A successful `_checkAndMintBadge` never touches the pool or the
registry (it either skips or writes only badge state). -/
theorem checkAndMintBadge_pool (b n : Nat) (w w' : World)
    (h : checkAndMintBadge b n w = .ok w') :
    w'.pool = w.pool ∧ w'.registry = w.registry := by
  simp only [checkAndMintBadge] at h
  split_ifs at h
  · cases h
    exact ⟨rfl, rfl⟩
  · cases h
    exact ⟨rfl, rfl⟩
  · cases hmb : mintBadge w.pool.self b (w.registry.profiles b).score
        (w.registry.profiles b).successfulRepayments n w.badge with
    | error e =>
      rw [hmb] at h
      cases h
    | ok pr =>
      rw [hmb] at h
      cases h
      exact ⟨rfl, rfl⟩
  · cases h
    exact ⟨rfl, rfl⟩

/-- `requestLoan` preserves the loan invariant. -/
theorem step_requestLoan_inv (c n x : Nat) (w : World) (h : LoanInv w) :
    LoanInv (step (.requestLoan c n x) w) := by
  simp only [step, exec]
  cases hr : requestLoan c n x w with
  | error e => exact h
  | ok w' =>
    simp only [requestLoan] at hr
    split_ifs at hr with h1 h2 h3 h4 h5 <;> try cases hr
    all_goals try (split at hr <;> try cases hr)
    all_goals try (split at hr <;> try cases hr)
    all_goals try (split at hr <;> try cases hr)
    intro b
    by_cases hbc : b = c
    · subst hbc
      have hc0 : w.pool.activeLoanCount b = 0 := by omega
      have hca : countActive (w.pool.borrowerLoans b) = 0 := by
        have := (h b).1
        omega
      simp [upd, countActive_append_one, hca, hc0]
    · simp [upd, hbc]
      exact h b

/-- `repayLoan` preserves the loan invariant. -/
theorem step_repayLoan_inv (c n i : Nat) (w : World) (h : LoanInv w) :
    LoanInv (step (.repayLoan c n i) w) := by
  simp only [step, exec]
  cases hr : repayLoan c n i w with
  | error e => exact h
  | ok w' =>
    simp only [repayLoan] at hr
    split_ifs at hr with h1 h2 h3 h4 h5 h6 <;> try cases hr
    all_goals try (split at hr <;> try cases hr)
    all_goals try (split at hr <;> try cases hr)
    all_goals try (split at hr <;> try cases hr)
    obtain ⟨hp, -⟩ := checkAndMintBadge_pool _ _ _ _ hr
    intro b
    rw [hp]
    by_cases hbc : b = c
    · subst hbc
      have hilt : i < (w.pool.borrowerLoans b).length := by omega
      have hact : ((w.pool.borrowerLoans b).getD i default).isActive = true := by
        simpa using h2
      have hset := countActive_set (w.pool.borrowerLoans b) i
        { amount := ((w.pool.borrowerLoans b).getD i default).amount,
          interestAmount :=
            ((w.pool.borrowerLoans b).getD i default).interestAmount,
          startTime := ((w.pool.borrowerLoans b).getD i default).startTime,
          dueDate := ((w.pool.borrowerLoans b).getD i default).dueDate,
          isActive := false, isRepaid := true,
          borrower := ((w.pool.borrowerLoans b).getD i default).borrower }
        hilt hact rfl
      have hinv := h b
      simp only [upd_same]
      constructor
      · omega
      · omega
    · simp [upd, hbc]
      exact h b

/-- Every transaction other than `requestLoan` / `repayLoan` leaves
all loan lists and active-loan counters unchanged. -/
theorem step_pool_loans_frame (a : Act) (w : World)
    (ha : ∀ c n x, a ≠ .requestLoan c n x)
    (hb : ∀ c n x, a ≠ .repayLoan c n x) :
    (step a w).pool.borrowerLoans = w.pool.borrowerLoans ∧
    (step a w).pool.activeLoanCount = w.pool.activeLoanCount := by
  cases a with
  | requestLoan c n x => exact absurd rfl (ha c n x)
  | repayLoan c n x => exact absurd rfl (hb c n x)
  | deposit c n x =>
    cases hE : exec (Act.deposit c n x) w with
    | error e =>
      have hst : step (Act.deposit c n x) w = w := by simp [step, hE]
      rw [hst]
      exact ⟨rfl, rfl⟩
    | ok w' =>
      have hst : step (Act.deposit c n x) w = w' := by simp [step, hE]
      rw [hst]
      simp only [exec, deposit] at hE
      split_ifs at hE <;> try cases hE
      all_goals try (split at hE <;> try cases hE)
      all_goals try (split at hE <;> try cases hE)
      all_goals exact ⟨rfl, rfl⟩
  | withdraw c n x =>
    cases hE : exec (Act.withdraw c n x) w with
    | error e =>
      have hst : step (Act.withdraw c n x) w = w := by simp [step, hE]
      rw [hst]
      exact ⟨rfl, rfl⟩
    | ok w' =>
      have hst : step (Act.withdraw c n x) w = w' := by simp [step, hE]
      rw [hst]
      simp only [exec, withdraw] at hE
      split_ifs at hE <;> try cases hE
      all_goals try (split at hE <;> try cases hE)
      all_goals try (split at hE <;> try cases hE)
      all_goals exact ⟨rfl, rfl⟩
  | emergencyWithdraw c x =>
    cases hE : exec (Act.emergencyWithdraw c x) w with
    | error e =>
      have hst : step (Act.emergencyWithdraw c x) w = w := by simp [step, hE]
      rw [hst]
      exact ⟨rfl, rfl⟩
    | ok w' =>
      have hst : step (Act.emergencyWithdraw c x) w = w' := by simp [step, hE]
      rw [hst]
      simp only [exec, emergencyWithdraw] at hE
      split_ifs at hE <;> try cases hE
      all_goals try (split at hE <;> try cases hE)
      all_goals try (split at hE <;> try cases hE)
      all_goals exact ⟨rfl, rfl⟩
  | setSenteBadge c addr =>
    cases hE : exec (Act.setSenteBadge c addr) w with
    | error e =>
      have hst : step (Act.setSenteBadge c addr) w = w := by simp [step, hE]
      rw [hst]
      exact ⟨rfl, rfl⟩
    | ok w' =>
      have hst : step (Act.setSenteBadge c addr) w = w' := by simp [step, hE]
      rw [hst]
      simp only [exec, setSenteBadge] at hE
      split_ifs at hE <;> try cases hE
      all_goals try (split at hE <;> try cases hE)
      all_goals exact ⟨rfl, rfl⟩
  | createProfile c n u sc =>
    cases hE : exec (Act.createProfile c n u sc) w with
    | error e =>
      have hst : step (Act.createProfile c n u sc) w = w := by simp [step, hE]
      rw [hst]
      exact ⟨rfl, rfl⟩
    | ok w' =>
      have hst : step (Act.createProfile c n u sc) w = w' := by simp [step, hE]
      rw [hst]
      simp only [exec] at hE
      try (split_ifs at hE <;> try cases hE)
      all_goals try (split at hE <;> try cases hE)
      all_goals try (split at hE <;> try cases hE)
      all_goals exact ⟨rfl, rfl⟩
  | updateScore c n u sc =>
    cases hE : exec (Act.updateScore c n u sc) w with
    | error e =>
      have hst : step (Act.updateScore c n u sc) w = w := by simp [step, hE]
      rw [hst]
      exact ⟨rfl, rfl⟩
    | ok w' =>
      have hst : step (Act.updateScore c n u sc) w = w' := by simp [step, hE]
      rw [hst]
      simp only [exec] at hE
      try (split_ifs at hE <;> try cases hE)
      all_goals try (split at hE <;> try cases hE)
      all_goals try (split at hE <;> try cases hE)
      all_goals exact ⟨rfl, rfl⟩
  | recordLoan c n u =>
    cases hE : exec (Act.recordLoan c n u) w with
    | error e =>
      have hst : step (Act.recordLoan c n u) w = w := by simp [step, hE]
      rw [hst]
      exact ⟨rfl, rfl⟩
    | ok w' =>
      have hst : step (Act.recordLoan c n u) w = w' := by simp [step, hE]
      rw [hst]
      simp only [exec] at hE
      try (split_ifs at hE <;> try cases hE)
      all_goals try (split at hE <;> try cases hE)
      all_goals try (split at hE <;> try cases hE)
      all_goals exact ⟨rfl, rfl⟩
  | recordRepayment c n u =>
    cases hE : exec (Act.recordRepayment c n u) w with
    | error e =>
      have hst : step (Act.recordRepayment c n u) w = w := by simp [step, hE]
      rw [hst]
      exact ⟨rfl, rfl⟩
    | ok w' =>
      have hst : step (Act.recordRepayment c n u) w = w' := by simp [step, hE]
      rw [hst]
      simp only [exec] at hE
      try (split_ifs at hE <;> try cases hE)
      all_goals try (split at hE <;> try cases hE)
      all_goals try (split at hE <;> try cases hE)
      all_goals exact ⟨rfl, rfl⟩
  | recordDefault c n u =>
    cases hE : exec (Act.recordDefault c n u) w with
    | error e =>
      have hst : step (Act.recordDefault c n u) w = w := by simp [step, hE]
      rw [hst]
      exact ⟨rfl, rfl⟩
    | ok w' =>
      have hst : step (Act.recordDefault c n u) w = w' := by simp [step, hE]
      rw [hst]
      simp only [exec] at hE
      try (split_ifs at hE <;> try cases hE)
      all_goals try (split at hE <;> try cases hE)
      all_goals try (split at hE <;> try cases hE)
      all_goals exact ⟨rfl, rfl⟩
  | grantOracle c u =>
    cases hE : exec (Act.grantOracle c u) w with
    | error e =>
      have hst : step (Act.grantOracle c u) w = w := by simp [step, hE]
      rw [hst]
      exact ⟨rfl, rfl⟩
    | ok w' =>
      have hst : step (Act.grantOracle c u) w = w' := by simp [step, hE]
      rw [hst]
      simp only [exec] at hE
      try (split_ifs at hE <;> try cases hE)
      all_goals try (split at hE <;> try cases hE)
      all_goals try (split at hE <;> try cases hE)
      all_goals exact ⟨rfl, rfl⟩
  | setAuthorizedMinter c m auth =>
    cases hE : exec (Act.setAuthorizedMinter c m auth) w with
    | error e =>
      have hst : step (Act.setAuthorizedMinter c m auth) w = w := by simp [step, hE]
      rw [hst]
      exact ⟨rfl, rfl⟩
    | ok w' =>
      have hst : step (Act.setAuthorizedMinter c m auth) w = w' := by simp [step, hE]
      rw [hst]
      simp only [exec] at hE
      try (split_ifs at hE <;> try cases hE)
      all_goals try (split at hE <;> try cases hE)
      all_goals try (split at hE <;> try cases hE)
      all_goals exact ⟨rfl, rfl⟩
  | mintBadgeExt c t sc rc n =>
    cases hE : exec (Act.mintBadgeExt c t sc rc n) w with
    | error e =>
      have hst : step (Act.mintBadgeExt c t sc rc n) w = w := by simp [step, hE]
      rw [hst]
      exact ⟨rfl, rfl⟩
    | ok w' =>
      have hst : step (Act.mintBadgeExt c t sc rc n) w = w' := by simp [step, hE]
      rw [hst]
      simp only [exec] at hE
      try (split_ifs at hE <;> try cases hE)
      all_goals try (split at hE <;> try cases hE)
      all_goals try (split at hE <;> try cases hE)
      all_goals exact ⟨rfl, rfl⟩
  | approve c sp x =>
    cases hE : exec (Act.approve c sp x) w with
    | error e =>
      have hst : step (Act.approve c sp x) w = w := by simp [step, hE]
      rw [hst]
      exact ⟨rfl, rfl⟩
    | ok w' =>
      have hst : step (Act.approve c sp x) w = w' := by simp [step, hE]
      rw [hst]
      simp only [exec] at hE
      try (split_ifs at hE <;> try cases hE)
      all_goals try (split at hE <;> try cases hE)
      all_goals try (split at hE <;> try cases hE)
      all_goals exact ⟨rfl, rfl⟩
  | transfer c t x =>
    cases hE : exec (Act.transfer c t x) w with
    | error e =>
      have hst : step (Act.transfer c t x) w = w := by simp [step, hE]
      rw [hst]
      exact ⟨rfl, rfl⟩
    | ok w' =>
      have hst : step (Act.transfer c t x) w = w' := by simp [step, hE]
      rw [hst]
      simp only [exec] at hE
      try (split_ifs at hE <;> try cases hE)
      all_goals try (split at hE <;> try cases hE)
      all_goals try (split at hE <;> try cases hE)
      all_goals exact ⟨rfl, rfl⟩

/-- Every single transaction preserves the loan invariant. -/
theorem step_loanInv (a : Act) (w : World) (h : LoanInv w) :
    LoanInv (step a w) := by
  cases ha : a with
  | requestLoan c n x => exact step_requestLoan_inv c n x w h
  | repayLoan c n i => exact step_repayLoan_inv c n i w h
  | _ =>
    obtain ⟨h1, h2⟩ := step_pool_loans_frame a w
      (by intro c n x hcontra; rw [ha] at hcontra; cases hcontra)
      (by intro c n x hcontra; rw [ha] at hcontra; cases hcontra)
    intro b
    rw [← ha, h1, h2]
    exact h b

/-- The loan invariant holds in every reachable state. -/
theorem run_loanInv (acts : List Act) (w : World) (h : LoanInv w) :
    LoanInv (run acts w) := by
  induction acts generalizing w with
  | nil => exact h
  | cons a rest ih => exact ih (step a w) (step_loanInv a w h)

/-- A freshly deployed system satisfies the loan invariant. -/
theorem initWorld_loanInv (d p : Nat) (bal : Nat → Nat) :
    LoanInv (initWorld d p bal) := by
  intro b
  simp [initWorld, countActive]

/-- No transaction ever changes a loan record that is already
terminal (not `Active`): `requestLoan` only appends, `repayLoan` only
rewrites an index whose loan is still `Active`, and nothing else
touches loan lists. -/
theorem step_terminal_frame (a : Act) (w : World) (b i : Nat)
    (hi : i < (w.pool.borrowerLoans b).length)
    (hterm : ((w.pool.borrowerLoans b).getD i default).isActive = false) :
    ((step a w).pool.borrowerLoans b).getD i default =
      (w.pool.borrowerLoans b).getD i default := by
  by_cases hreq : ∃ c n x, a = Act.requestLoan c n x
  · obtain ⟨c, n, x, rfl⟩ := hreq
    cases hE : exec (Act.requestLoan c n x) w with
    | error e =>
      have hst : step (Act.requestLoan c n x) w = w := by simp [step, hE]
      rw [hst]
    | ok w' =>
      have hst : step (Act.requestLoan c n x) w = w' := by simp [step, hE]
      rw [hst]
      simp only [exec, requestLoan] at hE
      split_ifs at hE <;> try cases hE
      all_goals try (split at hE <;> try cases hE)
      all_goals try (split at hE <;> try cases hE)
      all_goals try (split at hE <;> try cases hE)
      by_cases hbc : b = c
      · subst hbc
        simp only [upd_same]
        exact getD_append_left _ _ i hi
      · simp [upd, hbc]
  · by_cases hrep : ∃ c n j, a = Act.repayLoan c n j
    · obtain ⟨c, n, j, rfl⟩ := hrep
      cases hE : exec (Act.repayLoan c n j) w with
      | error e =>
        have hst : step (Act.repayLoan c n j) w = w := by simp [step, hE]
        rw [hst]
      | ok w' =>
        have hst : step (Act.repayLoan c n j) w = w' := by simp [step, hE]
        rw [hst]
        simp only [exec, repayLoan] at hE
        split_ifs at hE with h1 h2 h3 h4 h5 h6 <;> try cases hE
        all_goals try (split at hE <;> try cases hE)
        all_goals try (split at hE <;> try cases hE)
        all_goals try (split at hE <;> try cases hE)
        obtain ⟨hp, -⟩ := checkAndMintBadge_pool _ _ _ _ hE
        rw [hp]
        by_cases hbc : b = c
        · subst hbc
          have hij : i ≠ j := by
            intro hcontra
            rw [hcontra] at hterm
            rw [h2] at hterm
            cases hterm
          simp only [upd_same]
          exact getD_set_ne _ j i _ hij
        · simp [upd, hbc]
    · obtain ⟨h1, -⟩ := step_pool_loans_frame a w
        (fun c n x hcontra => hreq ⟨c, n, x, hcontra⟩)
        (fun c n x hcontra => hrep ⟨c, n, x, hcontra⟩)
      rw [h1]

/-- Initial world and trace for the C5 counterexample and parts of the
amended claim: same shape as the C1 setup — borrower 4 takes one loan
and now has an `Active` loan. -/
def c5Init : World :=
  initWorld 2 1 (fun a => if a = 3 then 10 ^ 10 else if a = 4 then 10 ^ 9 else 0)

def c5Trace : List Act :=
  [ .grantOracle 2 1,
    .createProfile 2 0 4 75,
    .approve 3 1 (5000 * 10 ^ 6),
    .deposit 3 0 (5000 * 10 ^ 6),
    .requestLoan 4 0 (100 * 10 ^ 6) ]

/-- C5 counterexample (to the error-identity part of the claim as
stated): borrower 4 has a non-terminal loan, yet
`requestLoan(0)` fails with `AmountTooLow`, not `ActiveLoanExists`,
because the amount-range guards run first. -/
theorem c5_counterexample :
    0 < countActive ((run c5Trace c5Init).pool.borrowerLoans 4)
    ∧ requestLoan 4 1 0 (run c5Trace c5Init) = .error .amountTooLow
    ∧ requestLoan 4 1 0 (run c5Trace c5Init) ≠ .error .activeLoanExists := by
  refine ⟨by decide, by rfl, ?_⟩
  intro hcontra
  rw [show requestLoan 4 1 0 (run c5Trace c5Init) = .error .amountTooLow from
    rfl] at hcontra
  simp at hcontra

/-- C5 as amended: in every reachable state each borrower has at most
one `Active` loan; `requestLoan` always fails while the caller has a
non-terminal loan — with `ActiveLoanExists` whenever the amount is
within `[MIN_LOAN_AMOUNT, MAX_LOAN_AMOUNT]`, and with the earlier
amount-range error otherwise; and a loan that is already terminal
(`Repaid` or `Defaulted`, i.e. not `Active`) is never changed by any
further transaction. -/
theorem c5_single_active_loan (acts : List Act) (d p : Nat) (bal : Nat → Nat)
    (a : Act) (b n amt i : Nat)
    (hactive : 0 < countActive
        ((run acts (initWorld d p bal)).pool.borrowerLoans b))
    (hi : i < ((run acts (initWorld d p bal)).pool.borrowerLoans b).length)
    (hterm : (((run acts (initWorld d p bal)).pool.borrowerLoans b).getD i
        default).isActive = false)
    (hmin : MIN_LOAN_AMOUNT ≤ amt) (hmax : amt ≤ MAX_LOAN_AMOUNT) :
    countActive ((run acts (initWorld d p bal)).pool.borrowerLoans b) ≤ 1
    ∧ requestLoan b n amt (run acts (initWorld d p bal)) =
        .error .activeLoanExists
    ∧ (∀ x, ∃ e, requestLoan b n x (run acts (initWorld d p bal)) = .error e)
    ∧ ((step a (run acts (initWorld d p bal))).pool.borrowerLoans b).getD i
        default =
      ((run acts (initWorld d p bal)).pool.borrowerLoans b).getD i default := by
  have hinv := run_loanInv acts (initWorld d p bal) (initWorld_loanInv d p bal)
  have hcnt : (run acts (initWorld d p bal)).pool.activeLoanCount b ≠ 0 := by
    have := (hinv b).1
    omega
  refine ⟨(hinv b).2, ?_, ?_, ?_⟩
  · simp only [requestLoan]
    rw [if_neg (by omega), if_neg (by omega), if_pos hcnt]
  · intro x
    simp only [requestLoan]
    by_cases hx1 : x < MIN_LOAN_AMOUNT
    · rw [if_pos hx1]
      exact ⟨_, rfl⟩
    · rw [if_neg hx1]
      by_cases hx2 : x > MAX_LOAN_AMOUNT
      · rw [if_pos hx2]
        exact ⟨_, rfl⟩
      · rw [if_neg hx2, if_pos hcnt]
        exact ⟨_, rfl⟩
  · exact step_terminal_frame a _ b i hi hterm

/-- C5 witness: after the C2 trace, borrower 4 holds two terminal
(`Repaid`) loans and one `Active` loan; all hypotheses hold and the
amended conclusion follows, with the next transaction taken to be a
further `repayLoan` attempt on the active loan. -/
theorem c5_single_active_loan_witness :
    0 < countActive ((run c2Trace c2Init).pool.borrowerLoans 4)
    ∧ 0 < ((run c2Trace c2Init).pool.borrowerLoans 4).length
    ∧ (((run c2Trace c2Init).pool.borrowerLoans 4).getD 0
        default).isActive = false
    ∧ MIN_LOAN_AMOUNT ≤ 100 * 10 ^ 6 ∧ 100 * 10 ^ 6 ≤ MAX_LOAN_AMOUNT
    ∧ (countActive ((run c2Trace c2Init).pool.borrowerLoans 4) ≤ 1
      ∧ requestLoan 4 60 (100 * 10 ^ 6) (run c2Trace c2Init) =
          .error .activeLoanExists
      ∧ (∀ x, ∃ e, requestLoan 4 60 x (run c2Trace c2Init) = .error e)
      ∧ (((step (.repayLoan 4 50 2) (run c2Trace c2Init)).pool.borrowerLoans
            4).getD 0 default =
          ((run c2Trace c2Init).pool.borrowerLoans 4).getD 0 default)) :=
  ⟨by decide, by decide, by decide, by decide, by decide,
   c5_single_active_loan c2Trace 2 1
     (fun a => if a = 3 then 10 ^ 10 else if a = 4 then 10 ^ 9 else 0)
     (.repayLoan 4 50 2) 4 60 (100 * 10 ^ 6) 0
     (by decide) (by decide) (by decide) (by decide) (by decide)⟩

end SenteChain
